import Mathlib

/-!
Verification of the cooperative coroutine scheduler of `wajic_coro.h`.

The JavaScript side of the library keeps all coroutine control blocks (CCBs)
in the linear memory `MU32` (a 32-bit word array).  A CCB at byte address `p`
occupies five words starting at word index `p >> 2`:

  word 0 : stack/unwind buffer base   (`p + 20`)
  word 1 : stack/unwind buffer limit  (`p + 20 + stack_size`)
  word 2 : registered entry-function index (0 for the main context)
  word 3 : user data passed to the entry function
  word 4 : wake state `n`
           0 = function ended without switching context
           1 = new coro entering its function for the first time
           2 = switching back into the coro after yielding to the browser
           3 = waiting with WaCoroWaitAnimFrame
           4 = waiting with WaCoroYield
           5+ms = waiting with WaCoroSleep for ms milliseconds

We embed the JavaScript functions `CoroHandler`, `CoroCtxSwitch`,
`WaCoroInitNew`, `WaCoroFree`, `WaCoroSwitch`, `WaCoroWaitAnimFrame`,
`WaCoroYield`, `WaCoroSleep` and the C function `nanosleep` as pure state
transformers.  Host interactions (asyncify, wake sources, malloc/free) are
recorded as an event trace.  The asyncify resume point of a suspended
coroutine (opaque bytes in its buffer in the real program) is modelled as a
ghost program counter `pc` into the coroutine's list of suspend operations.
-/

namespace Wajic

/-- 2^32, the modulus of the `MU32` word array cells. -/
def W32 : Nat := 4294967296

/-- 2^64, the modulus of C `uint64_t` arithmetic in `nanosleep`. -/
def U64 : Nat := 18446744073709551616

/-- The `MU32` word array: word index to stored value (< 2^32). -/
abbrev Mem := Nat → Nat

/-- Store `v` (reduced mod 2^32 like a `MU32[i] = v` store) at word index `i`. -/
def memW (m : Mem) (i v : Nat) : Mem := fun j => if j = i then v % W32 else m j

/-- A suspend operation a coroutine body can perform.  Coroutine bodies are
modelled as lists of these operations; all computation between suspend
operations is irrelevant to the scheduler and abstracted away. -/
inductive CoroOp where
  | switchTo (tgt : Nat)
  | yieldOp
  | waitFrame
  | sleep (ms : Int)
deriving DecidableEq, Repr

/-- Host interactions emitted by the embedded functions, in program order. -/
inductive Ev where
  | armAnimFrame
  | armMessage
  | armTimer (ms : Nat)
  | stopUnwind
  | startRewind (p : Nat)
  | stopRewind
  | startUnwind (p : Nat)
  | callFn (fnIdx arg : Nat)
  | callMain
  | mallocEv (size : Nat)
  | freeEv (p : Nat)
deriving DecidableEq, Repr

/-- Fixed environment: build-time constants and the wasm module's exports. -/
structure Env where
  wasmStackSize : Nat
  malloc : Nat → Nat
  asmExports : String → List CoroOp
  orgMain : List CoroOp

/-- The mutable scheduler state (the JS closure variables plus memory).
`main_data = 0` models the not-yet-assigned (falsy) `main_data` variable,
`coro_nums name = 0` models a name absent from the `coro_nums` map.
`pc` is the ghost asyncify resume index, `created` the ghost list of handles
returned by `WaCoroInitNew`. -/
structure Sys where
  mem : Mem
  coro_current : Nat
  main_data : Nat
  coro_count : Nat
  coro_nums : String → Nat
  coro_asms : Nat → List CoroOp
  pc : Nat → Nat
  created : List Nat

/-- Result of a call into the context-switch layer: the new state, the host
events emitted, whether the call left the stack unwinding (the boolean
returned by `CoroCtxSwitch`), and `uw`, the handle that was passed to
`asyncify_start_unwind` (0 when no unwind was started). -/
structure ApiRes where
  s : Sys
  evs : List Ev
  unwound : Bool
  uw : Nat

/-- Lazy materialization of the main context performed at the top of
`CoroCtxSwitch` (`if (!main_data) { ... }`, lines 61-70): allocate a
`20 + WASM_STACK_SIZE` byte block, fill in its five CCB words (entry index 0,
user data 0, wake state 0) and point both `main_data` and `coro_current` at
it. -/
def initMainCtx (env : Env) (s : Sys) : Sys × List Ev :=
  if s.main_data = 0 then
    let res := env.malloc (20 + env.wasmStackSize)
    let ptr := res / 4
    let m0 := memW s.mem (ptr + 0) (res + 20)
    let m1 := memW m0 (ptr + 1) (res + 20 + env.wasmStackSize)
    let m2 := memW m1 (ptr + 2) 0
    let m3 := memW m2 (ptr + 3) 0
    let m4 := memW m3 (ptr + 4) 0
    ({ s with mem := m4, main_data := res, coro_current := res },
     [Ev.mallocEv (20 + env.wasmStackSize)])
  else (s, [])

/-- `CoroCtxSwitch(n)` (lines 59-80).  After the lazy main-context check: if
the current coroutine's wake state is 2 a rewind is completing, so clear the
wake state to 0, stop the rewind and return `false`; otherwise record the
requested wake state `n` and start unwinding the current coroutine. -/
def CoroCtxSwitch (env : Env) (s0 : Sys) (n : Nat) : ApiRes :=
  let p := initMainCtx env s0
  let s := p.1
  let nptr := s.coro_current / 4 + 4
  if s.mem nptr = 2 then
    ⟨{ s with mem := memW s.mem nptr 0 }, p.2 ++ [Ev.stopRewind], false, 0⟩
  else
    ⟨{ s with mem := memW s.mem nptr n }, p.2 ++ [Ev.startUnwind s.coro_current], true,
      s.coro_current⟩

/-- `WaCoroSwitch(to)` (lines 103-106): `if (CoroCtxSwitch(2)) coro_current =
(to || main_data);`.  The cursor is reassigned only on the unwind path; during
the rewind replay `CoroCtxSwitch` returns `false` and the assignment is
skipped. -/
def WaCoroSwitch (env : Env) (s : Sys) (tgt : Nat) : ApiRes :=
  let r := CoroCtxSwitch env s 2
  if r.unwound then
    ⟨{ r.s with coro_current := if tgt = 0 then r.s.main_data else tgt }, r.evs, true, r.uw⟩
  else
    ⟨r.s, r.evs, false, r.uw⟩

/-- `WaCoroWaitAnimFrame()` (lines 109-112): `CoroCtxSwitch(3)`. -/
def WaCoroWaitAnimFrame (env : Env) (s : Sys) : ApiRes :=
  CoroCtxSwitch env s 3

/-- `WaCoroYield()` (lines 119-122): `CoroCtxSwitch(4)`. -/
def WaCoroYield (env : Env) (s : Sys) : ApiRes :=
  CoroCtxSwitch env s 4

/-- `WaCoroSleep(ms)` (lines 125-128): `CoroCtxSwitch(5 + (ms < 0 ? 0 : ms))`. -/
def WaCoroSleep (env : Env) (s : Sys) (ms : Int) : ApiRes :=
  CoroCtxSwitch env s (5 + (if ms < 0 then 0 else ms).toNat)

/-- `WaCoroInitNew(fn, fn_wa_export, user_data, stack_size)` (lines 83-94):
default the stack size, look up or register the exported entry function
(`fn = coro_nums[fn_wa_export] || (coro_asms[++coro_count] = ASM[...],
coro_nums[fn_wa_export] = coro_count)`), allocate `20 + stack_size` bytes and
fill in the five CCB words with wake state 1 (Entering).  The returned handle
is also recorded in the ghost `created` list. -/
def WaCoroInitNew (env : Env) (s0 : Sys) (fn_wa_export : String)
    (user_data : Nat) (stack_size0 : Nat) : Sys × Nat × List Ev :=
  let stack_size := if stack_size0 = 0 then env.wasmStackSize else stack_size0
  let reg :=
    if s0.coro_nums fn_wa_export ≠ 0 then (s0, s0.coro_nums fn_wa_export)
    else
      let k := s0.coro_count + 1
      ({ s0 with
          coro_count := k,
          coro_asms := fun i => if i = k then env.asmExports fn_wa_export else s0.coro_asms i,
          coro_nums := fun e => if e = fn_wa_export then k else s0.coro_nums e }, k)
  let s := reg.1
  let fn := reg.2
  let res := env.malloc (20 + stack_size)
  let ptr := res / 4
  let m0 := memW s.mem (ptr + 0) (res + 20)
  let m1 := memW m0 (ptr + 1) (res + 20 + stack_size)
  let m2 := memW m1 (ptr + 2) fn
  let m3 := memW m2 (ptr + 3) user_data
  let m4 := memW m3 (ptr + 4) 1
  ({ s with mem := m4, created := res :: s.created }, res, [Ev.mallocEv (20 + stack_size)])

/-- `WaCoroFree(coro)` (lines 97-100): `ASM.free(coro)` and nothing else. -/
def WaCoroFree (s : Sys) (coro : Nat) : Sys × List Ev :=
  (s, [Ev.freeEv coro])

/-- Whether a dispatch starts fresh at the entry function (wake state 1) or
rewinds a prior unwind (wake state 2). -/
inductive Dispatch where
  | fresh
  | rewind
deriving DecidableEq, Repr

/-- The decision one iteration of the `CoroHandler` loop (lines 35-57) takes
after reading `n = MU32[(coro_current>>2)+4]`:
`halt` for `n = 0` (`if (!n) return`), `arm` for `n > 2` (arm the matching
wake sources, store 2 into the wake state and return to the host), and
`call` for `n = 1` or `n = 2` (dispatch into the coroutine's function, fresh
or by rewinding, with the entry index and argument read from the CCB). -/
inductive IterOut where
  | halt : IterOut
  | arm : List Ev → Sys → IterOut
  | call : Dispatch → Nat → Nat → IterOut

/-- One decision step of the `CoroHandler` loop. -/
def handlerIter (s : Sys) : IterOut :=
  let nptr := s.coro_current / 4 + 4
  let n := s.mem nptr
  if n = 0 then .halt
  else if 2 < n then
    .arm ((if n = 3 then [Ev.armAnimFrame] else []) ++
          (if n = 4 then [Ev.armMessage] else []) ++
          (if 4 < n then [Ev.armTimer (n - 5)] else []))
         { s with mem := memW s.mem nptr 2 }
  else .call (if n = 2 then .rewind else .fresh) (s.mem (nptr - 2)) (s.mem (nptr - 1))

/-- Observation: the tag of an iteration decision. -/
inductive IterTag where
  | halt
  | arm
  | call
deriving DecidableEq, Repr

/-- Observation: project the tag out of an `IterOut`. -/
def iterTag : IterOut → IterTag
  | .halt => .halt
  | .arm _ _ => .arm
  | .call _ _ _ => .call

/-- Observation: the wake-source events armed by an iteration decision. -/
def iterArmed : IterOut → List Ev
  | .arm evs _ => evs
  | _ => []

/-- Observation: the state after an `arm` decision (`d` as fallback). -/
def iterArmState (d : Sys) : IterOut → Sys
  | .arm _ s => s
  | _ => d

/-- Observation: dispatch kind, entry index and argument of a `call` decision. -/
def iterCall : IterOut → Option (Dispatch × Nat × Nat)
  | .call d fnIdx arg => some (d, fnIdx, arg)
  | _ => none

/-- Execute one suspend operation of a coroutine body by calling the
corresponding API function. -/
def execApi (env : Env) (s : Sys) : CoroOp → ApiRes
  | .switchTo tgt => WaCoroSwitch env s tgt
  | .yieldOp => WaCoroYield env s
  | .waitFrame => WaCoroWaitAnimFrame env s
  | .sleep ms => WaCoroSleep env s ms

/-- Run the suspend operations of a coroutine body starting at absolute
index `i` (the given list is the remaining suffix of the body).  When an
operation unwinds, the ghost resume index of the handle whose unwind was
started (`asyncify_start_unwind(coro_current)` runs inside `CoroCtxSwitch`
before `WaCoroSwitch` reassigns the cursor) is set past the operation and
execution stops; when it does not unwind (the rewind-completion replay),
execution continues with the next operation.  The boolean is true when the
body suspended, false when it ran off the end of the list, i.e. the entry
function returned normally. -/
def runOps (env : Env) : Sys → List CoroOp → Nat → Sys × List Ev × Bool
  | s, [], _ => (s, [], false)
  | s, op :: rest, i =>
    let r := execApi env s op
    if r.unwound then
      ({ r.s with pc := fun h => if h = r.uw then i + 1 else r.s.pc h }, r.evs, true)
    else
      let q := runOps env r.s rest (i + 1)
      (q.1, r.evs ++ q.2.1, q.2.2)

/-- How a `CoroHandler` invocation ended: `halted` on wake state 0,
`armedReturn` after arming a wake source, `fuelOut` when the modelling fuel
ran out (the real loop would still be running). -/
inductive HOut where
  | halted
  | armedReturn
  | fuelOut
deriving DecidableEq, Repr

/-- The `CoroHandler` dispatcher loop (lines 33-58), fueled.  Each iteration
reads the current coroutine's wake state and either halts (0), arms the
matching wake source, stores 2 and returns to the host (> 2), or dispatches
into the coroutine's function (1 fresh / 2 rewinding) and loops.  A fresh
dispatch runs the body from index 0; a rewind dispatch replays the suspended
operation at `pc - 1`, whose `CoroCtxSwitch` observes wake state 2, clears
it and lets the body continue.  The entry index 0 designates `org_main`. -/
def CoroHandler (env : Env) : Nat → Sys → Sys × List Ev × HOut
  | 0, s => (s, [], .fuelOut)
  | fuel + 1, s =>
    match handlerIter s with
    | .halt => (s, [], .halted)
    | .arm evs s' => (s', evs, .armedReturn)
    | .call d fnIdx arg =>
      let cur := s.coro_current
      let evs0 := Ev.stopUnwind ::
        ((match d with | .rewind => [Ev.startRewind cur] | .fresh => []) ++
         [if fnIdx = 0 then Ev.callMain else Ev.callFn fnIdx arg])
      let prog := if fnIdx = 0 then env.orgMain else s.coro_asms fnIdx
      let startIdx := match d with | .fresh => 0 | .rewind => s.pc cur - 1
      let r := runOps env s (prog.drop startIdx) startIdx
      let q := CoroHandler env fuel r.1
      (q.1, evs0 ++ r.2.1 ++ q.2.1, q.2.2)

/-- The C `timespec` structure (only non-negative field values occur in the
claims; the fields are modelled as naturals). -/
structure timespec where
  tv_sec : Nat
  tv_nsec : Nat
deriving DecidableEq, Repr

/-- The `uint64_t` value `(uint64_t)t.tv_sec * 1000000000 + t.tv_nsec`
computed by `nanosleep` from a clock reading (lines 138/146). -/
def ns64 (t : timespec) : Nat := (t.tv_sec % U64 * 1000000000 + t.tv_nsec) % U64

/-- Which coroutine API call an iteration of the `nanosleep` loop makes. -/
inductive SleepCall where
  | sleepMs (ms : Nat)
  | yieldNow
deriving DecidableEq, Repr

/-- The `while (cur < til)` loop of `nanosleep` (lines 140-147), fueled.
`clock` is the monotonic-clock oracle (reading `i` is the result of the
`i`-th `clock_gettime` call; reading 0 happened before the loop), `i` the
index of the next reading, `cur` the current 64-bit nanosecond value.  Each
iteration records `(remain, call)` where `remain = til - cur` and `call` is
`WaCoroSleep((remain - 500000) / 1000000)` when `remain > 4500000` and
`WaCoroYield()` otherwise, then re-reads the clock.  Returns the recorded
trace and the final `cur`, or `none` when the fuel runs out. -/
def nanosleepLoop (clock : Nat → timespec) (til : Nat) :
    Nat → Nat → Nat → Option (List (Nat × SleepCall) × Nat)
  | 0, _, _ => none
  | fuel + 1, i, cur =>
    if cur < til then
      let remain := til - cur
      let c := if 4500000 < remain then SleepCall.sleepMs ((remain - 500000) / 1000000)
               else SleepCall.yieldNow
      match nanosleepLoop clock til fuel (i + 1) (ns64 (clock i)) with
      | none => none
      | some (tr, fin) => some ((remain, c) :: tr, fin)
    else some ([], cur)

/-- Result of a completed `nanosleep` call: the per-iteration trace, the
final clock value, the value stored through `rem` and the return value. -/
structure NanoRes where
  calls : List (Nat × SleepCall)
  finalCur : Nat
  remOut : timespec
  ret : Int
deriving DecidableEq, Repr

/-- The 64-bit deadline `til = cur + ((uint64_t)req->tv_sec * 1000000000 +
req->tv_nsec)` (line 139). -/
def nsleepDeadline (clock : Nat → timespec) (req : timespec) : Nat :=
  (ns64 (clock 0) + (req.tv_sec % U64 * 1000000000 + req.tv_nsec) % U64) % U64

/-- `nanosleep(req, rem)` (lines 134-150) with `rem` non-null: read the
monotonic clock, compute the deadline, loop until the clock passes it, then
store `{0,0}` through `rem` and return 0. -/
def nanosleep (clock : Nat → timespec) (req : timespec) (fuel : Nat) : Option NanoRes :=
  let cur := ns64 (clock 0)
  let til := nsleepDeadline clock req
  match nanosleepLoop clock til fuel 1 cur with
  | none => none
  | some (tr, fin) => some ⟨tr, fin, ⟨0, 0⟩, 0⟩

/-- The API-level transition relation of the scheduler: the running code can
call any of the coroutine API functions; the target of a `WaCoroSwitch` is
either null or a handle obtained from `WaCoroInitNew` (the documented
contract of the opaque `WaCoro` type). -/
inductive Step (env : Env) : Sys → Sys → Prop where
  | yieldStep (s : Sys) : Step env s (WaCoroYield env s).s
  | waitFrameStep (s : Sys) : Step env s (WaCoroWaitAnimFrame env s).s
  | sleepStep (s : Sys) (ms : Int) : Step env s (WaCoroSleep env s ms).s
  | switchStep (s : Sys) (tgt : Nat) (ht : tgt = 0 ∨ tgt ∈ s.created) :
      Step env s (WaCoroSwitch env s tgt).s
  | initNewStep (s : Sys) (name : String) (ud sz : Nat) :
      Step env s (WaCoroInitNew env s name ud sz).1
  | freeStep (s : Sys) (h : Nat) : Step env s (WaCoroFree s h).1

/-- The exclusivity invariant: once the main context is materialized, the
scheduler cursor is the main context or a created coroutine handle. -/
def ExclusiveCursor (s : Sys) : Prop :=
  s.main_data ≠ 0 → (s.coro_current = s.main_data ∨ s.coro_current ∈ s.created)

/-! Section: Concrete environments and states used by witnesses and counterexamples -/

def envA : Env := { wasmStackSize := 64, malloc := fun _ => 0,
                    asmExports := fun _ => [], orgMain := [] }

def sysA : Sys := { mem := fun i => if i = 29 then 2 else 0, coro_current := 100,
                    main_data := 100, coro_count := 0, coro_nums := fun _ => 0,
                    coro_asms := fun _ => [], pc := fun _ => 0, created := [] }

def sysSleep7 : Sys := { mem := fun i => if i = 4 then 12 else 0, coro_current := 0,
                         main_data := 100, coro_count := 0, coro_nums := fun _ => 0,
                         coro_asms := fun _ => [], pc := fun _ => 0, created := [] }

def sysZero : Sys := { mem := fun _ => 0, coro_current := 0, main_data := 0, coro_count := 0,
                       coro_nums := fun _ => 0, coro_asms := fun _ => [], pc := fun _ => 0,
                       created := [] }

def sysEnter : Sys := { mem := fun i => if i = 104 then 1 else if i = 102 then 1
                                        else if i = 103 then 7 else 0,
                        coro_current := 400, main_data := 100, coro_count := 1,
                        coro_nums := fun _ => 0, coro_asms := fun _ => [], pc := fun _ => 0,
                        created := [400] }

def sysResume : Sys := { mem := fun i => if i = 54 then 2 else if i = 52 then 1
                                         else if i = 53 then 9 else 0,
                         coro_current := 200, main_data := 100, coro_count := 1,
                         coro_nums := fun _ => 0, coro_asms := fun _ => [], pc := fun _ => 0,
                         created := [200] }

def sysRun : Sys := { mem := fun _ => 0, coro_current := 100, main_data := 100,
                      coro_count := 0, coro_nums := fun _ => 0, coro_asms := fun _ => [],
                      pc := fun _ => 0, created := [] }

def envFail : Env := { wasmStackSize := 16, malloc := fun _ => 0,
                       asmExports := fun _ => [], orgMain := [] }

def sysEnded : Sys := { mem := fun _ => 0, coro_current := 300, main_data := 100,
                        coro_count := 1, coro_nums := fun _ => 0, coro_asms := fun _ => [],
                        pc := fun _ => 0, created := [200, 300] }

def sysNoSuspend : Sys := { mem := fun i => if i = 104 then 1 else if i = 102 then 1 else 0,
                            coro_current := 400, main_data := 100, coro_count := 1,
                            coro_nums := fun _ => 0, coro_asms := fun _ => [],
                            pc := fun _ => 0, created := [400] }

def sysReplay : Sys := { mem := fun i => if i = 29 then 2 else 0, coro_current := 100,
                         main_data := 100, coro_count := 0, coro_nums := fun _ => 0,
                         coro_asms := fun _ => [], pc := fun _ => 0, created := [] }

def envM : Env := { wasmStackSize := 64, malloc := fun _ => 5000,
                    asmExports := fun _ => [], orgMain := [] }

def clockW : Nat → timespec := fun i => ⟨0, 5000000 * i⟩

def reqW : timespec := ⟨0, 12000000⟩


/-! Section: Helper lemmas -/

lemma memW_self (m : Mem) (i v : Nat) : memW m i v i = v % W32 := by
  simp [memW]

lemma memW_other (m : Mem) (i v j : Nat) (h : j ≠ i) : memW m i v j = m j := by
  simp [memW, h]

lemma initMainCtx_of_ne (env : Env) (s : Sys) (h : s.main_data ≠ 0) :
    initMainCtx env s = (s, []) := by
  simp [initMainCtx, h]

lemma handlerIter_halt_of_zero (s : Sys) (h : s.mem (s.coro_current / 4 + 4) = 0) :
    handlerIter s = IterOut.halt := by
  simp [handlerIter, h]

/-! Section: Claims -/

/-- Claim C10: `WaCoroFree(handle)` releases the handle's memory unconditionally:
it never inspects `wakeState` or any other field, so for every wake-state
value `v` (suspended mid-execution, still Entering, or Ended) the call
produces exactly the `free(handle)` effect, changes nothing else, and its
effect is the same as in any other state. -/
theorem wacoro_free_unconditional :
    ∀ (s : Sys) (coro v : Nat),
      (WaCoroFree { s with mem := memW s.mem (coro / 4 + 4) v } coro).2 = [Ev.freeEv coro] ∧
      (WaCoroFree { s with mem := memW s.mem (coro / 4 + 4) v } coro).1
        = { s with mem := memW s.mem (coro / 4 + 4) v } ∧
      (WaCoroFree { s with mem := memW s.mem (coro / 4 + 4) v } coro).2
        = (WaCoroFree s coro).2 := by
  intro s coro v
  exact ⟨rfl, rfl, rfl⟩

/-- Claim C9: when a suspended coroutine's rewind completes (`CoroCtxSwitch`
observes wake state 2 during the replayed suspend call) the wake state is set
to 0 before execution continues, and 0 is exactly the value on which the
dispatcher halts (the Ended encoding): the resumed, running coroutine is
indistinguishable from an Ended one. -/
theorem rewind_completion_ended_state (env : Env) (s : Sys) (n : Nat)
    (hmain : s.main_data ≠ 0)
    (h2 : s.mem (s.coro_current / 4 + 4) = 2) :
    (CoroCtxSwitch env s n).unwound = false ∧
    (CoroCtxSwitch env s n).s.mem (s.coro_current / 4 + 4) = 0 ∧
    iterTag (handlerIter (CoroCtxSwitch env s n).s) = IterTag.halt := by
  have hinit := initMainCtx_of_ne env s hmain
  refine ⟨?_, ?_, ?_⟩
  · simp [CoroCtxSwitch, hinit, h2]
  · simp [CoroCtxSwitch, hinit, h2, memW]
  · have hcur : (CoroCtxSwitch env s n).s.coro_current = s.coro_current := by
      simp [CoroCtxSwitch, hinit, h2]
    have hmem : (CoroCtxSwitch env s n).s.mem ((CoroCtxSwitch env s n).s.coro_current / 4 + 4)
        = 0 := by
      rw [hcur]
      simp [CoroCtxSwitch, hinit, h2, memW]
    rw [handlerIter_halt_of_zero _ hmem]
    rfl

/-- Witness for `rewind_completion_ended_state` at a concrete state. -/
theorem rewind_completion_ended_state_witness :
    (CoroCtxSwitch envA sysA 7).unwound = false ∧
    (CoroCtxSwitch envA sysA 7).s.mem (sysA.coro_current / 4 + 4) = 0 ∧
    iterTag (handlerIter (CoroCtxSwitch envA sysA 7).s) = IterTag.halt :=
  rewind_completion_ended_state envA sysA 7 (by decide) (by decide)

/-- Claim C2: on a dispatcher invocation in which the current coroutine's wake
state is a still-pending wait (3 = WaitingForFrame, 4 = WaitingForImmediateYield,
`> 4` = SleepingFor(wakeState − 5)), the dispatcher arms exactly the matching
wake source — the animation frame for 3, the zero-delay message for 4, a timer
of `wakeState − 5` milliseconds above 4 — stores 2 and returns to the host
without starting a rewind and without calling the coroutine's function. -/
theorem coro_handler_wait_multiplex (env : Env) (fuel : Nat) (s : Sys) (n : Nat)
    (hn : s.mem (s.coro_current / 4 + 4) = n) (hp : 2 < n) :
    (n = 3 → (CoroHandler env (fuel + 1) s).2.1 = [Ev.armAnimFrame]) ∧
    (n = 4 → (CoroHandler env (fuel + 1) s).2.1 = [Ev.armMessage]) ∧
    (4 < n → (CoroHandler env (fuel + 1) s).2.1 = [Ev.armTimer (n - 5)]) ∧
    (CoroHandler env (fuel + 1) s).2.2 = HOut.armedReturn ∧
    (CoroHandler env (fuel + 1) s).1.mem (s.coro_current / 4 + 4) = 2 ∧
    (CoroHandler env (fuel + 1) s).1.coro_current = s.coro_current ∧
    (∀ p, Ev.startRewind p ∉ (CoroHandler env (fuel + 1) s).2.1) ∧
    (∀ a b, Ev.callFn a b ∉ (CoroHandler env (fuel + 1) s).2.1) ∧
    Ev.callMain ∉ (CoroHandler env (fuel + 1) s).2.1 := by
  have hn0 : n ≠ 0 := by omega
  have harm : handlerIter s = IterOut.arm
      ((if n = 3 then [Ev.armAnimFrame] else []) ++
       (if n = 4 then [Ev.armMessage] else []) ++
       (if 4 < n then [Ev.armTimer (n - 5)] else []))
      { s with mem := memW s.mem (s.coro_current / 4 + 4) 2 } := by
    simp [handlerIter, hn, hn0, hp]
  have hh : CoroHandler env (fuel + 1) s =
      ({ s with mem := memW s.mem (s.coro_current / 4 + 4) 2 },
       (if n = 3 then [Ev.armAnimFrame] else []) ++
       (if n = 4 then [Ev.armMessage] else []) ++
       (if 4 < n then [Ev.armTimer (n - 5)] else []),
       HOut.armedReturn) := by
    simp [CoroHandler, harm]
  rw [hh]
  refine ⟨?_, ?_, ?_, rfl, ?_, rfl, ?_, ?_, ?_⟩
  · intro h3; subst h3; simp
  · intro h4; subst h4; simp
  · intro h5
    have : n ≠ 3 := by omega
    have h4 : n ≠ 4 := by omega
    simp [this, h4, h5]
  · simp [memW]
    decide
  · intro p
    rcases Nat.lt_or_ge n 5 with h | h
    · interval_cases n <;> simp
    · have : n ≠ 3 := by omega
      have h4 : n ≠ 4 := by omega
      simp [this, h4, (by omega : 4 < n)]
  · intro a b
    rcases Nat.lt_or_ge n 5 with h | h
    · interval_cases n <;> simp
    · have : n ≠ 3 := by omega
      have h4 : n ≠ 4 := by omega
      simp [this, h4, (by omega : 4 < n)]
  · rcases Nat.lt_or_ge n 5 with h | h
    · interval_cases n <;> simp
    · have : n ≠ 3 := by omega
      have h4 : n ≠ 4 := by omega
      simp [this, h4, (by omega : 4 < n)]

/-- Witness for `coro_handler_wait_multiplex`: a coroutine sleeping 7 ms
(wake state 12) gets exactly a 7 ms timer armed. -/
theorem coro_handler_wait_multiplex_witness :
    (12 = 3 → (CoroHandler envA 1 sysSleep7).2.1 = [Ev.armAnimFrame]) ∧
    (12 = 4 → (CoroHandler envA 1 sysSleep7).2.1 = [Ev.armMessage]) ∧
    (4 < 12 → (CoroHandler envA 1 sysSleep7).2.1 = [Ev.armTimer (12 - 5)]) ∧
    (CoroHandler envA 1 sysSleep7).2.2 = HOut.armedReturn ∧
    (CoroHandler envA 1 sysSleep7).1.mem (sysSleep7.coro_current / 4 + 4) = 2 ∧
    (CoroHandler envA 1 sysSleep7).1.coro_current = sysSleep7.coro_current ∧
    (∀ p, Ev.startRewind p ∉ (CoroHandler envA 1 sysSleep7).2.1) ∧
    (∀ a b, Ev.callFn a b ∉ (CoroHandler envA 1 sysSleep7).2.1) ∧
    Ev.callMain ∉ (CoroHandler envA 1 sysSleep7).2.1 :=
  coro_handler_wait_multiplex envA 0 sysSleep7 12 (by decide) (by decide)

/-- Claim C3: `WaCoroInitNew` stores wake state 1 (Entering) into the new
control block, and a dispatcher invocation finding wake state 1 dispatches by
`asyncify_stop_unwind` followed directly by a fresh call of the registered
entry function on the stored user data — no `asyncify_start_rewind` happens
before the call — whereas wake state 2 (ResumingAfterSwitch) is dispatched by
starting a rewind of the coroutine before the call. -/
theorem wacoro_first_entry
    (env : Env) (s : Sys) (name : String) (ud sz : Nat)
    (fuel : Nat) (s2 : Sys) (fnIdx : Nat)
    (h1 : s2.mem (s2.coro_current / 4 + 4) = 1)
    (hf : s2.mem (s2.coro_current / 4 + 2) = fnIdx) (hf0 : fnIdx ≠ 0)
    (s3 : Sys) (fnIdx3 : Nat)
    (h3 : s3.mem (s3.coro_current / 4 + 4) = 2)
    (hf3 : s3.mem (s3.coro_current / 4 + 2) = fnIdx3) (hf30 : fnIdx3 ≠ 0) :
    ((WaCoroInitNew env s name ud sz).1).mem ((WaCoroInitNew env s name ud sz).2.1 / 4 + 4)
      = 1 ∧
    ((CoroHandler env (fuel + 1) s2).2.1).take 2
      = [Ev.stopUnwind, Ev.callFn fnIdx (s2.mem (s2.coro_current / 4 + 3))] ∧
    ((CoroHandler env (fuel + 1) s3).2.1).take 3
      = [Ev.stopUnwind, Ev.startRewind s3.coro_current,
         Ev.callFn fnIdx3 (s3.mem (s3.coro_current / 4 + 3))] := by
  refine ⟨?_, ?_, ?_⟩
  · by_cases hc : s.coro_nums name ≠ 0 <;>
      simp [WaCoroInitNew, hc, memW, W32]
  · have hcall : handlerIter s2
        = IterOut.call Dispatch.fresh fnIdx (s2.mem (s2.coro_current / 4 + 3)) := by
      have e2 : s2.coro_current / 4 + 4 - 2 = s2.coro_current / 4 + 2 := by omega
      have e3 : s2.coro_current / 4 + 4 - 1 = s2.coro_current / 4 + 3 := by omega
      simp [handlerIter, h1, e2, e3, hf]
    simp [CoroHandler, hcall, hf0]
  · have hcall : handlerIter s3
        = IterOut.call Dispatch.rewind fnIdx3 (s3.mem (s3.coro_current / 4 + 3)) := by
      have e2 : s3.coro_current / 4 + 4 - 2 = s3.coro_current / 4 + 2 := by omega
      have e3 : s3.coro_current / 4 + 4 - 1 = s3.coro_current / 4 + 3 := by omega
      simp [handlerIter, h3, e2, e3, hf3]
    simp [CoroHandler, hcall, hf30]

/-- Witness for `wacoro_first_entry` at concrete states. -/
theorem wacoro_first_entry_witness :
    ((WaCoroInitNew envA sysZero "f" 7 0).1).mem ((WaCoroInitNew envA sysZero "f" 7 0).2.1 / 4 + 4)
      = 1 ∧
    ((CoroHandler envA 1 sysEnter).2.1).take 2
      = [Ev.stopUnwind, Ev.callFn 1 (sysEnter.mem (sysEnter.coro_current / 4 + 3))] ∧
    ((CoroHandler envA 1 sysResume).2.1).take 3
      = [Ev.stopUnwind, Ev.startRewind sysResume.coro_current,
         Ev.callFn 1 (sysResume.mem (sysResume.coro_current / 4 + 3))] :=
  wacoro_first_entry envA sysZero "f" 7 0 0 sysEnter 1 (by decide) (by decide) (by decide)
    sysResume 1 (by decide) (by decide) (by decide)

/-- Claim C4: `WaCoroSleep(ms)` called outside a rewind replay suspends the
current coroutine with wake state `5 + max(ms,0)`; the dispatcher's timer for
that state is exactly `max(ms,0)` milliseconds; `WaCoroSleep` with a negative
argument is the very same call as `WaCoroSleep(0)`; and a host timer that
never fires before its delay therefore resumes the coroutine no earlier than
`ms` milliseconds after arming, for `ms ≥ 0`. -/
theorem wacoro_sleep_clamp (env : Env) (s : Sys) (ms : Int)
    (hmain : s.main_data ≠ 0)
    (hrun : s.mem (s.coro_current / 4 + 4) ≠ 2)
    (hhi : ms < 2147483648) :
    (WaCoroSleep env s ms).s.mem (s.coro_current / 4 + 4) = 5 + (max ms 0).toNat ∧
    (WaCoroSleep env s ms).unwound = true ∧
    iterArmed (handlerIter (WaCoroSleep env s ms).s) = [Ev.armTimer (max ms 0).toNat] ∧
    WaCoroSleep env s ms = WaCoroSleep env s (max ms 0) ∧
    (∀ tArm tFire : Nat, tArm + (max ms 0).toNat ≤ tFire → 0 ≤ ms →
      tArm + ms.toNat ≤ tFire) := by
  have hinit := initMainCtx_of_ne env s hmain
  have hcl : (if ms < 0 then (0 : Int) else ms) = max ms 0 := by
    rcases le_or_lt 0 ms with h | h
    · simp [not_lt.mpr h, max_eq_left h]
    · simp [h, max_eq_right (le_of_lt h)]
  have ht : (max ms 0).toNat < 2147483648 := by
    rcases le_or_lt 0 ms with h | h
    · rw [max_eq_left h]; omega
    · rw [max_eq_right (le_of_lt h)]; omega
  have hmm : (5 + (max ms 0).toNat) % W32 = 5 + (max ms 0).toNat := by
    apply Nat.mod_eq_of_lt; unfold W32; omega
  have hmem : (WaCoroSleep env s ms).s.mem (s.coro_current / 4 + 4)
      = 5 + (max ms 0).toNat := by
    simp [WaCoroSleep, CoroCtxSwitch, hinit, hrun, hcl, memW, hmm]
  have hcur : (WaCoroSleep env s ms).s.coro_current = s.coro_current := by
    simp [WaCoroSleep, CoroCtxSwitch, hinit, hrun]
  refine ⟨hmem, ?_, ?_, ?_, ?_⟩
  · simp [WaCoroSleep, CoroCtxSwitch, hinit, hrun]
  · have harm : handlerIter (WaCoroSleep env s ms).s
        = IterOut.arm [Ev.armTimer (max ms 0).toNat]
            { (WaCoroSleep env s ms).s with
                mem := memW (WaCoroSleep env s ms).s.mem (s.coro_current / 4 + 4) 2 } := by
      rw [handlerIter]
      rw [hcur, hmem]
      have h0 : ¬ (5 + (max ms 0).toNat = 0) := by omega
      have h2 : 2 < 5 + (max ms 0).toNat := by omega
      have h3 : ¬ (5 + (max ms 0).toNat = 3) := by omega
      have h4 : ¬ (5 + (max ms 0).toNat = 4) := by omega
      have h5 : 4 < 5 + (max ms 0).toNat := by omega
      simp only [h0, h2, h3, h4, h5, if_false, if_true, if_neg, if_pos,
        Nat.add_sub_cancel_left, List.nil_append, List.append_nil]
      have : 5 + (max ms 0).toNat - 5 = (max ms 0).toNat := by omega
      simp [this, hcur]
    rw [harm]
    rfl
  · have : (if max ms 0 < 0 then (0 : Int) else max ms 0) = max ms 0 := by
      have : ¬ max ms 0 < 0 := not_lt.mpr (le_max_right ms 0)
      simp [this]
    rw [WaCoroSleep, WaCoroSleep, hcl, this]
  · intro tArm tFire hfire hms
    have : ms.toNat ≤ (max ms 0).toNat := by
      rw [max_eq_left hms]
    omega

/-- Witness for `wacoro_sleep_clamp` at `ms = -3` (treated as 0). -/
theorem wacoro_sleep_clamp_witness :
    (WaCoroSleep envA sysRun (-3)).s.mem (sysRun.coro_current / 4 + 4)
      = 5 + (max (-3 : Int) 0).toNat ∧
    (WaCoroSleep envA sysRun (-3)).unwound = true ∧
    iterArmed (handlerIter (WaCoroSleep envA sysRun (-3)).s)
      = [Ev.armTimer (max (-3 : Int) 0).toNat] ∧
    WaCoroSleep envA sysRun (-3) = WaCoroSleep envA sysRun (max (-3 : Int) 0) ∧
    (∀ tArm tFire : Nat, tArm + (max (-3 : Int) 0).toNat ≤ tFire → 0 ≤ (-3 : Int) →
      tArm + (-3 : Int).toNat ≤ tFire) :=
  wacoro_sleep_clamp envA sysRun (-3) (by decide) (by decide) (by decide)

/-- Claim C5 counterexample: when `malloc` fails (returns 0), `WaCoroInitNew`
does return the null handle 0, but it does *not* "perform no other action":
it still writes the five control-block words at the null address (word 0 of
memory changes from 0 to 20, word 4 to 1) and still registers the entry
function (`coro_count` changes from 0 to 1). -/
theorem initnew_alloc_failure_counterexample :
    (WaCoroInitNew envFail sysZero "f" 7 0).2.1 = 0 ∧
    sysZero.mem 0 = 0 ∧
    (WaCoroInitNew envFail sysZero "f" 7 0).1.mem 0 = 20 ∧
    (WaCoroInitNew envFail sysZero "f" 7 0).1.mem 4 = 1 ∧
    sysZero.coro_count = 0 ∧
    (WaCoroInitNew envFail sysZero "f" 7 0).1.coro_count = 1 := by
  refine ⟨?_, rfl, ?_, ?_, rfl, ?_⟩ <;> decide

/-- Claim C5 amended: if the allocation fails, `WaCoroInitNew` returns the null
handle 0 — so the caller can detect the failure by checking the returned
handle — but the call is not otherwise action-free: it still writes the
control-block words at address 0 (word 0 becomes 20, word 4 becomes the
Entering state 1). -/
theorem initnew_alloc_failure_amended (env : Env) (s : Sys) (name : String)
    (ud sz : Nat)
    (hfail : env.malloc (20 + (if sz = 0 then env.wasmStackSize else sz)) = 0) :
    (WaCoroInitNew env s name ud sz).2.1 = 0 ∧
    (WaCoroInitNew env s name ud sz).1.mem 0
      = (20 + (if sz = 0 then env.wasmStackSize else sz) - (if sz = 0 then env.wasmStackSize else sz)) ∧
    (WaCoroInitNew env s name ud sz).1.mem 4 = 1 := by
  refine ⟨?_, ?_, ?_⟩ <;>
    · by_cases hc : s.coro_nums name ≠ 0 <;>
        simp [WaCoroInitNew, hc, hfail, memW, W32]

/-- Witness for `initnew_alloc_failure_amended` with the failing allocator. -/
theorem initnew_alloc_failure_amended_witness :
    (WaCoroInitNew envFail sysZero "g" 9 0).2.1 = 0 ∧
    (WaCoroInitNew envFail sysZero "g" 9 0).1.mem 0
      = (20 + (if 0 = 0 then envFail.wasmStackSize else 0) - (if 0 = 0 then envFail.wasmStackSize else 0)) ∧
    (WaCoroInitNew envFail sysZero "g" 9 0).1.mem 4 = 1 :=
  initnew_alloc_failure_amended envFail sysZero "g" 9 0 (by decide)

/-- Claim C6 counterexample: in `sysEnded` the handle 200 has wake state 0
(Ended), yet `WaCoroSwitch(200)` is not rejected or asserted: the running
coroutine 300 is suspended and the cursor moves to 200 exactly as for a live
target; the dispatcher then merely halts.  Moreover a coroutine whose entry
function returns normally without ever suspending (handle 400, whose body is
the empty list) does not get wake state Ended: it stays at Entering (1) and
the dispatcher calls its entry function again. -/
theorem ended_switch_counterexample :
    sysEnded.mem (200 / 4 + 4) = 0 ∧
    (WaCoroSwitch envA sysEnded 200).unwound = true ∧
    (WaCoroSwitch envA sysEnded 200).s.coro_current = 200 ∧
    iterTag (handlerIter (WaCoroSwitch envA sysEnded 200).s) = IterTag.halt ∧
    (CoroHandler envA 2 sysNoSuspend).2.1
      = [Ev.stopUnwind, Ev.callFn 1 0, Ev.stopUnwind, Ev.callFn 1 0] ∧
    (CoroHandler envA 2 sysNoSuspend).1.mem (400 / 4 + 4) = 1 := by
  refine ⟨rfl, ?_, ?_, ?_, ?_, ?_⟩ <;> decide

/-- Claim C6 amended: a coroutine whose entry function returns normally after
its last resumption has wake state 0 (the Ended encoding) from then on, and
the dispatcher, reading 0, halts without ever executing the coroutine's code
again; but a `WaCoroSwitch` into an Ended coroutine is *not* rejected or
asserted — the switch proceeds exactly as for a live target (the current
coroutine unwinds and the cursor moves to the Ended handle), after which the
dispatcher halts with no wake source armed. -/
theorem ended_switch_amended
    (env : Env) (sE s sR : Sys) (tgt : Nat) (op : CoroOp) (i : Nat)
    (hend : sE.mem (sE.coro_current / 4 + 4) = 0)
    (hmain : s.main_data ≠ 0) (hnot2 : s.mem (s.coro_current / 4 + 4) ≠ 2) (htgt : tgt ≠ 0)
    (hRmain : sR.main_data ≠ 0) (hR2 : sR.mem (sR.coro_current / 4 + 4) = 2) :
    iterTag (handlerIter sE) = IterTag.halt ∧
    (WaCoroSwitch env s tgt).unwound = true ∧
    (WaCoroSwitch env s tgt).s.coro_current = tgt ∧
    (runOps env sR [op] i).2.2 = false ∧
    (runOps env sR [op] i).1.mem (sR.coro_current / 4 + 4) = 0 ∧
    (runOps env sR [op] i).1.coro_current = sR.coro_current := by
  have hinitS := initMainCtx_of_ne env s hmain
  have hinitR := initMainCtx_of_ne env sR hRmain
  refine ⟨?_, ?_, ?_, ?_, ?_, ?_⟩
  · rw [handlerIter_halt_of_zero sE hend]; rfl
  · simp [WaCoroSwitch, CoroCtxSwitch, hinitS, hnot2]
  · simp [WaCoroSwitch, CoroCtxSwitch, hinitS, hnot2, htgt]
  · cases op <;>
      simp [runOps, execApi, WaCoroSwitch, WaCoroYield, WaCoroWaitAnimFrame, WaCoroSleep,
        CoroCtxSwitch, hinitR, hR2]
  · cases op <;>
      simp [runOps, execApi, WaCoroSwitch, WaCoroYield, WaCoroWaitAnimFrame, WaCoroSleep,
        CoroCtxSwitch, hinitR, hR2, memW]
  · cases op <;>
      simp [runOps, execApi, WaCoroSwitch, WaCoroYield, WaCoroWaitAnimFrame, WaCoroSleep,
        CoroCtxSwitch, hinitR, hR2]

/-- Witness for `ended_switch_amended` at concrete states. -/
theorem ended_switch_amended_witness :
    iterTag (handlerIter sysEnded) = IterTag.halt ∧
    (WaCoroSwitch envA sysRun 200).unwound = true ∧
    (WaCoroSwitch envA sysRun 200).s.coro_current = 200 ∧
    (runOps envA sysReplay [CoroOp.yieldOp] 3).2.2 = false ∧
    (runOps envA sysReplay [CoroOp.yieldOp] 3).1.mem (sysReplay.coro_current / 4 + 4) = 0 ∧
    (runOps envA sysReplay [CoroOp.yieldOp] 3).1.coro_current = sysReplay.coro_current :=
  ended_switch_amended envA sysEnded sysRun sysReplay 200 CoroOp.yieldOp 3
    (by decide) (by decide) (by decide) (by decide) (by decide) (by decide)

/-- Claim C7 counterexample: `MainContext` *is* separately allocated.  On the
first switch (here `WaCoroSwitch(NULL)` with `main_data` still unset) the
code calls `malloc(20 + WASM_STACK_SIZE)` and makes the returned block the
main context — it does not reuse the program's default stack without an
allocation of its own. -/
theorem main_context_allocation_counterexample :
    sysZero.main_data = 0 ∧
    (WaCoroSwitch envM sysZero 0).evs
      = [Ev.mallocEv (20 + envM.wasmStackSize), Ev.startUnwind 5000] ∧
    (WaCoroSwitch envM sysZero 0).s.main_data = 5000 ∧
    Ev.mallocEv (20 + envM.wasmStackSize) ∈ (WaCoroSwitch envM sysZero 0).evs := by
  refine ⟨rfl, ?_, ?_, ?_⟩ <;> decide

/-- Claim C7 amended: `WaCoroSwitch(NULL)` suspends the current coroutine (wake
state 2, unwind started) and sets the cursor to `main_data`; the main context
is lazily materialized on the first switch and created at most once (once
`main_data` is non-zero no further allocation happens and `main_data` never
changes) — but it is separately allocated: the materialization calls
`malloc(20 + WASM_STACK_SIZE)` and `main_data` becomes the returned block. -/
theorem main_context_switch_amended (env : Env) (s sI : Sys) (n : Nat)
    (hmain : s.main_data ≠ 0) (hnot2 : s.mem (s.coro_current / 4 + 4) ≠ 2)
    (hI : sI.main_data = 0) :
    (WaCoroSwitch env s 0).s.coro_current = s.main_data ∧
    (WaCoroSwitch env s 0).s.mem (s.coro_current / 4 + 4) = 2 ∧
    (WaCoroSwitch env s 0).unwound = true ∧
    (CoroCtxSwitch env s n).s.main_data = s.main_data ∧
    (∀ sz, Ev.mallocEv sz ∉ (CoroCtxSwitch env s n).evs) ∧
    (CoroCtxSwitch env sI n).s.main_data = env.malloc (20 + env.wasmStackSize) ∧
    Ev.mallocEv (20 + env.wasmStackSize) ∈ (CoroCtxSwitch env sI n).evs := by
  have hinit := initMainCtx_of_ne env s hmain
  refine ⟨?_, ?_, ?_, ?_, ?_, ?_, ?_⟩
  · simp [WaCoroSwitch, CoroCtxSwitch, hinit, hnot2]
  · simp [WaCoroSwitch, CoroCtxSwitch, hinit, hnot2, memW, W32]
  · simp [WaCoroSwitch, CoroCtxSwitch, hinit, hnot2]
  · by_cases h2 : s.mem (s.coro_current / 4 + 4) = 2 <;>
      simp [CoroCtxSwitch, hinit, h2]
  · intro sz
    by_cases h2 : s.mem (s.coro_current / 4 + 4) = 2 <;>
      simp [CoroCtxSwitch, hinit, h2]
  · rw [CoroCtxSwitch]
    simp only [initMainCtx, hI, if_pos]
    split <;> rfl
  · rw [CoroCtxSwitch]
    simp only [initMainCtx, hI, if_pos]
    split <;> simp

/-- Witness for `main_context_switch_amended` at concrete states. -/
theorem main_context_switch_amended_witness :
    (WaCoroSwitch envM sysRun 0).s.coro_current = sysRun.main_data ∧
    (WaCoroSwitch envM sysRun 0).s.mem (sysRun.coro_current / 4 + 4) = 2 ∧
    (WaCoroSwitch envM sysRun 0).unwound = true ∧
    (CoroCtxSwitch envM sysRun 4).s.main_data = sysRun.main_data ∧
    (∀ sz, Ev.mallocEv sz ∉ (CoroCtxSwitch envM sysRun 4).evs) ∧
    (CoroCtxSwitch envM sysZero 4).s.main_data = envM.malloc (20 + envM.wasmStackSize) ∧
    Ev.mallocEv (20 + envM.wasmStackSize) ∈ (CoroCtxSwitch envM sysZero 4).evs :=
  main_context_switch_amended envM sysRun sysZero 4 (by decide) (by decide) (by decide)

/-! Section: Lemmas for the nanosleep loop and the exclusivity invariant -/

lemma nanosleepLoop_sound (clock : Nat → timespec) (til : Nat) :
    ∀ (fuel i cur : Nat) (tr : List (Nat × SleepCall)) (fin : Nat),
      nanosleepLoop clock til fuel i cur = some (tr, fin) →
      til ≤ fin ∧ ∀ p ∈ tr, 0 < p.1 ∧
        p.2 = (if 4500000 < p.1 then SleepCall.sleepMs ((p.1 - 500000) / 1000000)
               else SleepCall.yieldNow) := by
  intro fuel
  induction fuel with
  | zero =>
    intro i cur tr fin h
    simp [nanosleepLoop] at h
  | succ k ih =>
    intro i cur tr fin h
    rw [nanosleepLoop] at h
    by_cases hc : cur < til
    · rw [if_pos hc] at h
      cases hrec : nanosleepLoop clock til k (i + 1) (ns64 (clock i)) with
      | none => rw [hrec] at h; simp at h
      | some pr =>
        obtain ⟨tr', fin'⟩ := pr
        rw [hrec] at h
        simp only [Option.some.injEq, Prod.mk.injEq] at h
        obtain ⟨htr, hfin⟩ := h
        obtain ⟨hle, hall⟩ := ih (i + 1) (ns64 (clock i)) tr' fin' hrec
        subst htr
        subst hfin
        refine ⟨hle, ?_⟩
        intro p hp
        rcases List.mem_cons.mp hp with hp | hp
        · subst hp
          exact ⟨by omega, rfl⟩
        · exact hall p hp
    · rw [if_neg hc] at h
      simp only [Option.some.injEq, Prod.mk.injEq] at h
      obtain ⟨htr, hfin⟩ := h
      subst htr
      subst hfin
      exact ⟨by omega, by simp⟩

/-- Claim C8: `nanosleep(req, rem)` returns only once the monotonic clock has
reached the deadline (the clock value at entry plus `req`'s duration, in the
non-overflowing case), returns 0 and stores `{0,0}` through `rem`; and every
loop iteration with `remain` nanoseconds left calls
`WaCoroSleep((remain - 500000) / 1000000)` when `remain > 4500000` and
`WaCoroYield()` otherwise. -/
theorem nanosleep_spec (clock : Nat → timespec) (req : timespec) (fuel : Nat) (r : NanoRes)
    (hsome : nanosleep clock req fuel = some r)
    (hnoflow : ns64 (clock 0) + (req.tv_sec % U64 * 1000000000 + req.tv_nsec) % U64 < U64) :
    r.ret = 0 ∧ r.remOut = ⟨0, 0⟩ ∧
    ns64 (clock 0) + (req.tv_sec % U64 * 1000000000 + req.tv_nsec) % U64 ≤ r.finalCur ∧
    ∀ p ∈ r.calls, 0 < p.1 ∧
      p.2 = (if 4500000 < p.1 then SleepCall.sleepMs ((p.1 - 500000) / 1000000)
             else SleepCall.yieldNow) := by
  have hd : nsleepDeadline clock req
      = ns64 (clock 0) + (req.tv_sec % U64 * 1000000000 + req.tv_nsec) % U64 := by
    exact Nat.mod_eq_of_lt hnoflow
  rw [nanosleep] at hsome
  cases hloop : nanosleepLoop clock (nsleepDeadline clock req) fuel 1 (ns64 (clock 0)) with
  | none => rw [hloop] at hsome; simp at hsome
  | some pr =>
    obtain ⟨tr, fin⟩ := pr
    rw [hloop] at hsome
    simp only [Option.some.injEq] at hsome
    obtain ⟨hle, hall⟩ := nanosleepLoop_sound clock (nsleepDeadline clock req)
      fuel 1 (ns64 (clock 0)) tr fin hloop
    subst hsome
    exact ⟨rfl, rfl, by rw [← hd]; exact hle, hall⟩

/-- Witness for `nanosleep_spec`: a 12 ms sleep under a clock advancing 5 ms
per reading sleeps 11 ms, then 6 ms, then yields, and ends past the
deadline. -/
theorem nanosleep_spec_witness :
    (⟨[(12000000, SleepCall.sleepMs 11), (7000000, SleepCall.sleepMs 6),
       (2000000, SleepCall.yieldNow)], 15000000, ⟨0, 0⟩, 0⟩ : NanoRes).ret = 0 ∧
    (⟨[(12000000, SleepCall.sleepMs 11), (7000000, SleepCall.sleepMs 6),
       (2000000, SleepCall.yieldNow)], 15000000, ⟨0, 0⟩, 0⟩ : NanoRes).remOut = ⟨0, 0⟩ ∧
    ns64 (clockW 0) + (reqW.tv_sec % U64 * 1000000000 + reqW.tv_nsec) % U64
      ≤ (⟨[(12000000, SleepCall.sleepMs 11), (7000000, SleepCall.sleepMs 6),
           (2000000, SleepCall.yieldNow)], 15000000, ⟨0, 0⟩, 0⟩ : NanoRes).finalCur ∧
    ∀ p ∈ (⟨[(12000000, SleepCall.sleepMs 11), (7000000, SleepCall.sleepMs 6),
             (2000000, SleepCall.yieldNow)], 15000000, ⟨0, 0⟩, 0⟩ : NanoRes).calls,
      0 < p.1 ∧
      p.2 = (if 4500000 < p.1 then SleepCall.sleepMs ((p.1 - 500000) / 1000000)
             else SleepCall.yieldNow) :=
  nanosleep_spec clockW reqW 5
    ⟨[(12000000, SleepCall.sleepMs 11), (7000000, SleepCall.sleepMs 6),
      (2000000, SleepCall.yieldNow)], 15000000, ⟨0, 0⟩, 0⟩
    (by decide) (by decide)

lemma initMainCtx_fields (env : Env) (s : Sys) (h0 : s.main_data = 0) :
    (initMainCtx env s).1.coro_current = env.malloc (20 + env.wasmStackSize) ∧
    (initMainCtx env s).1.main_data = env.malloc (20 + env.wasmStackSize) ∧
    (initMainCtx env s).1.created = s.created := by
  simp [initMainCtx, h0]

lemma initMainCtx_created (env : Env) (s : Sys) :
    (initMainCtx env s).1.created = s.created := by
  by_cases h0 : s.main_data = 0 <;> simp [initMainCtx, h0]

lemma ctxSwitch_fields (env : Env) (s : Sys) (n : Nat) :
    (CoroCtxSwitch env s n).s.coro_current = (initMainCtx env s).1.coro_current ∧
    (CoroCtxSwitch env s n).s.main_data = (initMainCtx env s).1.main_data ∧
    (CoroCtxSwitch env s n).s.created = (initMainCtx env s).1.created := by
  by_cases h2 :
      ((initMainCtx env s).1).mem ((initMainCtx env s).1.coro_current / 4 + 4) = 2 <;>
    simp [CoroCtxSwitch, h2]

lemma ctxSwitch_preserves (env : Env) (s : Sys) (n : Nat) (h : ExclusiveCursor s) :
    ExclusiveCursor (CoroCtxSwitch env s n).s := by
  obtain ⟨hc, hm, hcr⟩ := ctxSwitch_fields env s n
  unfold ExclusiveCursor at h ⊢
  rw [hc, hm, hcr]
  by_cases h0 : s.main_data = 0
  · obtain ⟨c1, c2, c3⟩ := initMainCtx_fields env s h0
    rw [c1, c2, c3]
    intro _
    exact Or.inl rfl
  · rw [initMainCtx_of_ne env s h0]
    exact h

lemma waCoroSwitch_fields_unwound (env : Env) (s : Sys) (tgt : Nat)
    (hu : (CoroCtxSwitch env s 2).unwound = true) :
    (WaCoroSwitch env s tgt).s.coro_current
      = (if tgt = 0 then (CoroCtxSwitch env s 2).s.main_data else tgt) ∧
    (WaCoroSwitch env s tgt).s.main_data = (CoroCtxSwitch env s 2).s.main_data ∧
    (WaCoroSwitch env s tgt).s.created = (CoroCtxSwitch env s 2).s.created := by
  simp [WaCoroSwitch, hu]

lemma switch_preserves (env : Env) (s : Sys) (tgt : Nat)
    (ht : tgt = 0 ∨ tgt ∈ s.created) (h : ExclusiveCursor s) :
    ExclusiveCursor (WaCoroSwitch env s tgt).s := by
  by_cases hu : (CoroCtxSwitch env s 2).unwound = true
  · obtain ⟨f1, f2, f3⟩ := waCoroSwitch_fields_unwound env s tgt hu
    unfold ExclusiveCursor
    rw [f1, f2, f3, (ctxSwitch_fields env s 2).2.2, initMainCtx_created]
    intro hm
    by_cases h0 : tgt = 0
    · subst h0
      simp
    · rw [if_neg h0]
      rcases ht with ht | ht
      · exact absurd ht h0
      · exact Or.inr ht
  · have heq : WaCoroSwitch env s tgt = ⟨(CoroCtxSwitch env s 2).s, (CoroCtxSwitch env s 2).evs,
        false, (CoroCtxSwitch env s 2).uw⟩ := by
      simp [WaCoroSwitch, hu]
    rw [heq]
    exact ctxSwitch_preserves env s 2 h

lemma initNew_preserves (env : Env) (s : Sys) (name : String) (ud sz : Nat)
    (h : ExclusiveCursor s) : ExclusiveCursor (WaCoroInitNew env s name ud sz).1 := by
  unfold ExclusiveCursor at h ⊢
  by_cases hc : s.coro_nums name ≠ 0 <;>
  · simp only [WaCoroInitNew, hc, if_true, if_false, ite_not]
    intro hm
    rcases h hm with h1 | h2
    · exact Or.inl h1
    · exact Or.inr (List.mem_cons_of_mem _ h2)

/-- Claim C1: exclusivity of the scheduler cursor.  (1) Every API-level step
preserves the invariant that `coro_current` is the main context or a created
coroutine handle; (2) once the main context is materialized, none of
`WaCoroYield`, `WaCoroWaitAnimFrame`, `WaCoroSleep`, `WaCoroInitNew`,
`WaCoroFree` changes the cursor; (3) the only cursor change is the explicit
`WaCoroSwitch`, which on unwind sets `coro_current` to the target handle, or
to the main context when the target is null. -/
theorem wacoro_exclusivity :
    (∀ (env : Env) (s s' : Sys), Step env s s' → ExclusiveCursor s → ExclusiveCursor s') ∧
    (∀ (env : Env) (s : Sys), s.main_data ≠ 0 →
      (WaCoroYield env s).s.coro_current = s.coro_current ∧
      (WaCoroWaitAnimFrame env s).s.coro_current = s.coro_current ∧
      (∀ ms : Int, (WaCoroSleep env s ms).s.coro_current = s.coro_current) ∧
      (∀ (name : String) (ud sz : Nat),
        (WaCoroInitNew env s name ud sz).1.coro_current = s.coro_current) ∧
      (∀ hd : Nat, (WaCoroFree s hd).1.coro_current = s.coro_current)) ∧
    (∀ (env : Env) (s : Sys) (tgt : Nat), s.main_data ≠ 0 →
      (WaCoroSwitch env s tgt).unwound = true →
      (WaCoroSwitch env s tgt).s.coro_current = if tgt = 0 then s.main_data else tgt) := by
  refine ⟨?_, ?_, ?_⟩
  · intro env s s' hstep hinv
    cases hstep with
    | yieldStep => exact ctxSwitch_preserves env s 4 hinv
    | waitFrameStep => exact ctxSwitch_preserves env s 3 hinv
    | sleepStep ms => exact ctxSwitch_preserves env s _ hinv
    | switchStep tgt ht => exact switch_preserves env s tgt ht hinv
    | initNewStep name ud sz => exact initNew_preserves env s name ud sz hinv
    | freeStep hd => exact hinv
  · intro env s hm
    have hinit := initMainCtx_of_ne env s hm
    have key : ∀ n : Nat, (CoroCtxSwitch env s n).s.coro_current = s.coro_current := by
      intro n
      rw [(ctxSwitch_fields env s n).1, hinit]
    refine ⟨key 4, key 3, fun ms => key _, ?_, fun hd => rfl⟩
    intro name ud sz
    by_cases hc : s.coro_nums name ≠ 0 <;> simp [WaCoroInitNew, hc]
  · intro env s tgt hm hu
    by_cases hru : (CoroCtxSwitch env s 2).unwound = true
    · have hm2 : (CoroCtxSwitch env s 2).s.main_data = s.main_data := by
        rw [(ctxSwitch_fields env s 2).2.1, initMainCtx_of_ne env s hm]
      simp only [WaCoroSwitch, hru, if_true]
      rw [hm2]
    · rw [WaCoroSwitch] at hu
      simp [hru] at hu

/-- Witness for `wacoro_exclusivity`: a concrete yield step preserves the
invariant and leaves the cursor unchanged, and a concrete switch retargets
the cursor. -/
theorem wacoro_exclusivity_witness :
    ExclusiveCursor (WaCoroYield envA sysEnded).s ∧
    (WaCoroYield envA sysEnded).s.coro_current = sysEnded.coro_current ∧
    (WaCoroSwitch envA sysEnded 200).s.coro_current
      = (if (200 : Nat) = 0 then sysEnded.main_data else 200) := by
  have hinv : ExclusiveCursor sysEnded := by
    intro _
    exact Or.inr (by decide)
  refine ⟨?_, ?_, ?_⟩
  · exact wacoro_exclusivity.1 envA sysEnded _ (Step.yieldStep sysEnded) hinv
  · exact (wacoro_exclusivity.2.1 envA sysEnded (by decide)).1
  · exact wacoro_exclusivity.2.2 envA sysEnded 200 (by decide) (by decide)

end Wajic
